import Mathlib

/-!
Verification of the SOMANET CSV EtherCAT example
(`EtherCAT/SOEM/CSV_test_SOMANET_v42.c`).

The development shallowly embeds the two functions of the source file:

* `simpletest` — configuration, the bounded wait for the OPERATIONAL link
  state, the 10000-iteration cyclic process-data loop with its working-counter
  gate and the bit-masked CiA-402 drive state machine;
* `ecatcheck` — the concurrently running supervisor loop that recovers
  degraded device link states.

External SOEM stack calls (process-data exchange, state checks,
reconfigure/recover) are modelled by explicit environment records supplying
their observable results; `printf` output is modelled by structured event
logs.  Machine integers are modelled as `Int` (the C fields are signed) and
the 16-bit status word as its bit pattern, a `Nat`, since the source only
ever masks its low bits.
-/

namespace SomanetCSV

/-- Input process image `in_somanet_42t` of the source.  `Statusword` is an
`int16` in C but is only ever used through bit masking, so it is modelled as
its 16-bit bit pattern. -/
structure InSomanet where
  Statusword : Nat
  OpModeDisplay : Int
  PositionValue : Int
  VelocityValue : Int
  TorqueValue : Int
  SecPositionValue : Int
  SecVelocityValue : Int
  AnalogInput1 : Int
  AnalogInput2 : Int
  AnalogInput3 : Int
  AnalogInput4 : Int
  TuningStatus : Int
  DigitalInput1 : Int
  DigitalInput2 : Int
  DigitalInput3 : Int
  DigitalInput4 : Int
  UserMISO : Int
  Timestamp : Int
  PositionDemandInternalValue : Int
  VelocityDemandValue : Int
  TorqueDemand : Int
  deriving Repr, DecidableEq

/-- Output process image `out_somanet_42t` of the source (the device command
buffer). -/
structure OutSomanet where
  Controlword : Int
  OpMode : Int
  TargetTorque : Int
  TargetPosition : Int
  TargetVelocity : Int
  TorqueOffset : Int
  TuningCommand : Int
  DigitalOutput1 : Int
  DigitalOutput2 : Int
  DigitalOutput3 : Int
  DigitalOutput4 : Int
  UserMOSI : Int
  VelocityOffset : Int
  deriving Repr, DecidableEq

/-- The CiA-402 drive state machine of the cyclic loop: the else-if chain of
`simpletest` testing `Statusword` under masks `0x004F` / `0x006F` and writing
`Controlword` (or `TargetVelocity`), translated branch for branch from the
source. -/
def driveSM (sw : Nat) (out : OutSomanet) : OutSomanet :=
  if sw &&& 0x004F = 0x0008 then { out with Controlword := 0x0080 }
  else if sw &&& 0x004F = 0x0040 then { out with Controlword := 0x0006 }
  else if sw &&& 0x006F = 0x0021 then { out with Controlword := 0x0007 }
  else if sw &&& 0x006F = 0x0023 then { out with Controlword := 0x000F }
  else if sw &&& 0x006F = 0x0027 then { out with TargetVelocity := 100 }
  else out

/-- The five (mask, pattern, action) transitions of the drive state machine
in the priority order of the source: fault reset, shutdown, switch on,
enable operation, set target velocity. -/
def csvTransitions : List (Nat × Nat × (OutSomanet → OutSomanet)) :=
  [ (0x004F, 0x0008, fun o => { o with Controlword := 0x0080 }),
    (0x004F, 0x0040, fun o => { o with Controlword := 0x0006 }),
    (0x006F, 0x0021, fun o => { o with Controlword := 0x0007 }),
    (0x006F, 0x0023, fun o => { o with Controlword := 0x000F }),
    (0x006F, 0x0027, fun o => { o with TargetVelocity := 100 }) ]

/-- First-match application of an ordered (mask, pattern, action) list: at
most one action, the highest-priority matching one, is applied. -/
def applyFirstMatch : List (Nat × Nat × (OutSomanet → OutSomanet)) → Nat → OutSomanet → OutSomanet
  | [], _, o => o
  | t :: rest, sw, o => if sw &&& t.1 = t.2.1 then t.2.2 o else applyFirstMatch rest sw o

/-- Variant of the drive state machine in which the five conditions are
tested as five independent if-statements instead of an else-if chain. -/
def driveSMIndep (sw : Nat) (out : OutSomanet) : OutSomanet :=
  let o1 := if sw &&& 0x004F = 0x0008 then { out with Controlword := 0x0080 } else out
  let o2 := if sw &&& 0x004F = 0x0040 then { o1 with Controlword := 0x0006 } else o1
  let o3 := if sw &&& 0x006F = 0x0021 then { o2 with Controlword := 0x0007 } else o2
  let o4 := if sw &&& 0x006F = 0x0023 then { o3 with Controlword := 0x000F } else o3
  if sw &&& 0x006F = 0x0027 then { o4 with TargetVelocity := 100 } else o4

/-- Number of drive state-machine guard conditions that hold on a given
status word. -/
def smCondCount (sw : Nat) : Nat :=
  (if sw &&& 0x004F = 0x0008 then 1 else 0) +
  (if sw &&& 0x004F = 0x0040 then 1 else 0) +
  (if sw &&& 0x006F = 0x0021 then 1 else 0) +
  (if sw &&& 0x006F = 0x0023 then 1 else 0) +
  (if sw &&& 0x006F = 0x0027 then 1 else 0)

/-- A masked equality pins every bit of the status word that the mask
selects. -/
lemma testBit_of_mask_eq {sw m p : Nat} (h : sw &&& m = p) (i : Nat)
    (hm : m.testBit i = true) : sw.testBit i = p.testBit i := by
  have hb := congrArg (fun n => Nat.testBit n i) h
  simpa [Nat.testBit_land, hm] using hb

/-- Two masked guards whose patterns disagree on a bit that both masks
select cannot hold simultaneously. -/
lemma mask_guard_ne (sw : Nat) {m1 p1 m2 p2 : Nat} (h : sw &&& m1 = p1)
    (hm1 : m1.testBit 0 = true) (hm2 : m2.testBit 0 = true)
    (hp : Nat.testBit p1 0 ≠ Nat.testBit p2 0) : sw &&& m2 ≠ p2 := by
  intro h2
  exact hp ((testBit_of_mask_eq h 0 hm1).symm.trans (testBit_of_mask_eq h2 0 hm2))

lemma guard1_excl (sw : Nat) (h : sw &&& 0x004F = 0x0008) :
    sw &&& 0x004F ≠ 0x0040 ∧ sw &&& 0x006F ≠ 0x0021 ∧
    sw &&& 0x006F ≠ 0x0023 ∧ sw &&& 0x006F ≠ 0x0027 := by
  refine ⟨by rw [h]; decide, ?_, ?_, ?_⟩ <;>
    exact mask_guard_ne sw h (by decide) (by decide) (by decide)

lemma guard2_excl (sw : Nat) (h : sw &&& 0x004F = 0x0040) :
    sw &&& 0x006F ≠ 0x0021 ∧ sw &&& 0x006F ≠ 0x0023 ∧ sw &&& 0x006F ≠ 0x0027 := by
  refine ⟨?_, ?_, ?_⟩ <;>
    exact mask_guard_ne sw h (by decide) (by decide) (by decide)

lemma guard3_excl (sw : Nat) (h : sw &&& 0x006F = 0x0021) :
    sw &&& 0x006F ≠ 0x0023 ∧ sw &&& 0x006F ≠ 0x0027 := by
  constructor <;> (rw [h]; decide)

lemma guard4_excl (sw : Nat) (h : sw &&& 0x006F = 0x0023) :
    sw &&& 0x006F ≠ 0x0027 := by
  rw [h]; decide

lemma smCondCount_le_one (sw : Nat) : smCondCount sw ≤ 1 := by
  unfold smCondCount
  by_cases h1 : sw &&& 0x004F = 0x0008
  · obtain ⟨n2, n3, n4, n5⟩ := guard1_excl sw h1
    simp [h1, n2, n3, n4, n5]
  by_cases h2 : sw &&& 0x004F = 0x0040
  · obtain ⟨n3, n4, n5⟩ := guard2_excl sw h2
    simp [h1, h2, n3, n4, n5]
  by_cases h3 : sw &&& 0x006F = 0x0021
  · obtain ⟨n4, n5⟩ := guard3_excl sw h3
    simp [h1, h2, h3, n4, n5]
  by_cases h4 : sw &&& 0x006F = 0x0023
  · have n5 := guard4_excl sw h4
    simp [h1, h2, h3, h4, n5]
  by_cases h5 : sw &&& 0x006F = 0x0027 <;> simp [h1, h2, h3, h4, h5]

lemma driveSMIndep_eq_driveSM (sw : Nat) (o : OutSomanet) :
    driveSMIndep sw o = driveSM sw o := by
  unfold driveSMIndep driveSM
  by_cases h1 : sw &&& 0x004F = 0x0008
  · obtain ⟨n2, n3, n4, n5⟩ := guard1_excl sw h1
    simp [h1, n2, n3, n4, n5]
  by_cases h2 : sw &&& 0x004F = 0x0040
  · obtain ⟨n3, n4, n5⟩ := guard2_excl sw h2
    simp [h1, h2, n3, n4, n5]
  by_cases h3 : sw &&& 0x006F = 0x0021
  · obtain ⟨n4, n5⟩ := guard3_excl sw h3
    simp [h1, h2, h3, n4, n5]
  by_cases h4 : sw &&& 0x006F = 0x0023
  · have n5 := guard4_excl sw h4
    simp [h1, h2, h3, h4, n5]
  by_cases h5 : sw &&& 0x006F = 0x0027 <;> simp [h1, h2, h3, h4, h5]

/-! ## The cyclic process-data loop of `simpletest` -/

/-- What one cycle of the loop obtains from the external stack: the working
counter returned by `ec_receive_processdata` and the input process image the
exchange delivered. -/
structure CycleInput where
  wkc : Int
  image : InSomanet
  deriving Repr, DecidableEq

/-- One status line printed by an accepted cycle (cycle index, working
counter, status word, op-mode display, actual position, actual velocity,
demand velocity). -/
structure StatusLine where
  cycle : Nat
  wkc : Int
  statusword : Nat
  opModeDisplay : Int
  actualPos : Int
  actualVel : Int
  demandVel : Int
  deriving Repr, DecidableEq

/-- State carried across cycles of the loop: the accepted-cycle counter `j`,
the output command buffer, and instrumentation logs recording the status
lines printed and every write of the operating-mode selector (cycle index
and value written). -/
structure LoopState where
  j : Nat
  out : OutSomanet
  lines : List StatusLine
  opModeWrites : List (Nat × Int)
  deriving Repr, DecidableEq

/-- The expected working counter as computed once after configuration:
`(ec_group[0].outputsWKC * 2) + ec_group[0].inputsWKC`. -/
def computeExpectedWKC (outputsWKC inputsWKC : Int) : Int :=
  outputsWKC * 2 + inputsWKC

/-- The body of the cyclic loop of `simpletest` for iteration `i`, translated
from the source: if the observed working counter meets the expected one, the
accepted-cycle counter is incremented, the operating-mode selector is set to
9 (CSV) when that counter is 1, the drive state machine runs on the status
word, and a status line is printed; otherwise the state is untouched. -/
def cycleBody (expectedWKC : Int) (i : Nat) (c : CycleInput) (s : LoopState) : LoopState :=
  if expectedWKC ≤ c.wkc then
    let j := s.j + 1
    let out1 := if j = 1 then { s.out with OpMode := 9 } else s.out
    let out2 := driveSM c.image.Statusword out1
    { j := j
      out := out2
      lines := s.lines ++
        [⟨i, c.wkc, c.image.Statusword, c.image.OpModeDisplay, c.image.PositionValue,
          c.image.VelocityValue, c.image.VelocityDemandValue⟩]
      opModeWrites := s.opModeWrites ++ (if j = 1 then [(i, (9 : Int))] else []) }
  else s

/-- Folding the cyclic loop body over a list of per-cycle exchange results,
starting from iteration index `i`. -/
def runCycles (expectedWKC : Int) : Nat → List CycleInput → LoopState → LoopState
  | _, [], s => s
  | i, c :: rest, s => runCycles expectedWKC (i + 1) rest (cycleBody expectedWKC i c s)

/-- Loop state at entry of the cyclic loop: accepted-cycle counter 0, the
command buffer as mapped, nothing printed, no operating-mode write yet. -/
def initLoopState (out0 : OutSomanet) : LoopState :=
  { j := 0, out := out0, lines := [], opModeWrites := [] }

/-- The whole cyclic loop (`for i = 1 .. `), one `CycleInput` per iteration. -/
def runLoop (expectedWKC : Int) (inputs : List CycleInput) (out0 : OutSomanet) : LoopState :=
  runCycles expectedWKC 1 inputs (initLoopState out0)

/-- The 1-based index of the first cycle whose working counter meets the
expected one, scanning from index `i`. -/
def firstAccepted (expectedWKC : Int) : Nat → List CycleInput → Option Nat
  | _, [] => none
  | i, c :: rest => if expectedWKC ≤ c.wkc then some i else firstAccepted expectedWKC (i + 1) rest

/-- A degraded cycle (working counter below expected) leaves the loop state
untouched: command buffer, accepted-cycle counter, logs. -/
lemma cycleBody_degraded {expectedWKC : Int} {c : CycleInput} (i : Nat) (s : LoopState)
    (h : c.wkc < expectedWKC) : cycleBody expectedWKC i c s = s := by
  unfold cycleBody
  rw [if_neg (by omega)]

/-- An accepted cycle always appends a status line, so it never leaves the
state fixed. -/
lemma cycleBody_accepted_ne {expectedWKC : Int} {c : CycleInput} (i : Nat) (s : LoopState)
    (h : expectedWKC ≤ c.wkc) : cycleBody expectedWKC i c s ≠ s := by
  unfold cycleBody
  rw [if_pos h]
  intro hEq
  have := congrArg (fun t => t.lines.length) hEq
  simp at this

/-- Once the accepted-cycle counter is positive, no further operating-mode
write is recorded by the rest of the run. -/
lemma runCycles_opModeWrites_of_pos (expectedWKC : Int) :
    ∀ (inputs : List CycleInput) (i : Nat) (s : LoopState), 0 < s.j →
      (runCycles expectedWKC i inputs s).opModeWrites = s.opModeWrites := by
  intro inputs
  induction inputs with
  | nil => intro i s _; rfl
  | cons c rest ih =>
    intro i s hj
    show (runCycles expectedWKC (i + 1) rest (cycleBody expectedWKC i c s)).opModeWrites
        = s.opModeWrites
    by_cases hw : expectedWKC ≤ c.wkc
    · have hj1 : s.j + 1 ≠ 1 := by omega
      have hbody : (cycleBody expectedWKC i c s).opModeWrites = s.opModeWrites := by
        unfold cycleBody
        rw [if_pos hw]
        simp [hj1]
      have hjpos : 0 < (cycleBody expectedWKC i c s).j := by
        unfold cycleBody
        rw [if_pos hw]
        simp
      rw [ih (i + 1) _ hjpos, hbody]
    · rw [cycleBody_degraded i s (by omega)]
      exact ih (i + 1) s hj

/-- From a state with accepted-cycle counter 0, the operating-mode writes
recorded by the rest of the run are exactly one write of 9 at the first
accepted cycle, or none when no cycle is accepted. -/
lemma runCycles_opModeWrites_of_zero (expectedWKC : Int) :
    ∀ (inputs : List CycleInput) (i : Nat) (s : LoopState), s.j = 0 →
      (runCycles expectedWKC i inputs s).opModeWrites =
        s.opModeWrites ++
          ((firstAccepted expectedWKC i inputs).elim [] fun k => [(k, (9 : Int))]) := by
  intro inputs
  induction inputs with
  | nil => intro i s _; simp [runCycles, firstAccepted]
  | cons c rest ih =>
    intro i s hj
    show (runCycles expectedWKC (i + 1) rest (cycleBody expectedWKC i c s)).opModeWrites = _
    by_cases hw : expectedWKC ≤ c.wkc
    · have hbody : (cycleBody expectedWKC i c s).opModeWrites
          = s.opModeWrites ++ [(i, (9 : Int))] := by
        unfold cycleBody
        rw [if_pos hw]
        simp [hj]
      have hjpos : 0 < (cycleBody expectedWKC i c s).j := by
        unfold cycleBody
        rw [if_pos hw]
        simp
      rw [runCycles_opModeWrites_of_pos expectedWKC rest (i + 1) _ hjpos, hbody]
      simp [firstAccepted, hw]
    · rw [cycleBody_degraded i s (by omega)]
      rw [ih (i + 1) s hj]
      simp [firstAccepted, hw]

/-! ## The bounded wait for the OPERATIONAL link state -/

/-- EtherCAT application-layer state constants of the external stack's
header (`EC_STATE_NONE`, `EC_STATE_SAFE_OP`, `EC_STATE_OPERATIONAL`,
`EC_STATE_ERROR`, `EC_STATE_ACK`), with their standard numeric values. -/
def EC_STATE_NONE : Nat := 0x00

def EC_STATE_INIT : Nat := 0x01

def EC_STATE_PRE_OP : Nat := 0x02

def EC_STATE_SAFE_OP : Nat := 0x04

def EC_STATE_OPERATIONAL : Nat := 0x08

def EC_STATE_ERROR : Nat := 0x10

def EC_STATE_ACK : Nat := 0x10

/-- The `do { exchange; statecheck } while (chk-- && state != OPERATIONAL)`
wait of `simpletest`.  `stateAt k` is the broadcast state `ec_statecheck`
observes after the `k`-th body execution (0-based); the result is the total
number of body executions performed and the final observed state.  The
counter argument plays the role of `chk`. -/
def opWaitGo (stateAt : Nat → Nat) : Nat → Nat → Nat × Nat
  | 0, i => (i + 1, stateAt i)
  | chk + 1, i =>
    if stateAt i = EC_STATE_OPERATIONAL then (i + 1, stateAt i)
    else opWaitGo stateAt chk (i + 1)

/-- The wait loop as run by `simpletest`, with `chk = 200`. -/
def opWait (stateAt : Nat → Nat) : Nat × Nat :=
  opWaitGo stateAt 200 0

/-- If the observed state is never OPERATIONAL, the wait loop performs its
initial attempt plus exactly `chk` retries. -/
lemma opWaitGo_never (stateAt : Nat → Nat)
    (h : ∀ k, stateAt k ≠ EC_STATE_OPERATIONAL) :
    ∀ (chk i : Nat), opWaitGo stateAt chk i = (i + chk + 1, stateAt (i + chk)) := by
  intro chk
  induction chk with
  | zero => intro i; simp [opWaitGo]
  | succ n ih =>
    intro i
    have hne := h i
    have hrec : opWaitGo stateAt (n + 1) i = opWaitGo stateAt n (i + 1) := by
      simp only [opWaitGo, if_neg hne]
    rw [hrec, ih (i + 1)]
    have h1 : i + 1 + n = i + (n + 1) := by omega
    rw [h1]

/-- The wait loop performs at most `chk + 1` exchange attempts. -/
lemma opWaitGo_bound (stateAt : Nat → Nat) :
    ∀ (chk i : Nat), (opWaitGo stateAt chk i).1 ≤ i + chk + 1 := by
  intro chk
  induction chk with
  | zero => intro i; simp [opWaitGo]
  | succ n ih =>
    intro i
    unfold opWaitGo
    by_cases hst : stateAt i = EC_STATE_OPERATIONAL
    · rw [if_pos hst]; omega
    · rw [if_neg hst]
      have := ih (i + 1)
      omega

/-- The per-device diagnostic loop of the failure path: for each device
index from `i` while `i ≤ count`, one line is reported when its state is not
OPERATIONAL.  Structural recursion is on the number of remaining indices. -/
def diagLoop (slaveStates : Nat → Nat) : Nat → Nat → List Nat
  | _, 0 => []
  | i, remaining + 1 =>
    (if slaveStates i ≠ EC_STATE_OPERATIONAL then [i] else []) ++
      diagLoop slaveStates (i + 1) remaining

lemma diagLoop_eq_filter (slaveStates : Nat → Nat) :
    ∀ (remaining i : Nat),
      diagLoop slaveStates i remaining =
        (List.range' i remaining).filter
          (fun s => slaveStates s ≠ EC_STATE_OPERATIONAL) := by
  intro remaining
  induction remaining with
  | zero => intro i; simp [diagLoop]
  | succ n ih =>
    intro i
    rw [List.range'_succ]
    by_cases hst : slaveStates i ≠ EC_STATE_OPERATIONAL
    · simp [diagLoop, hst, ih (i + 1)]
    · simp [diagLoop, hst, ih (i + 1)]

/-! ## The control skeleton of `simpletest` -/

/-- Everything the external stack feeds into one run of `simpletest`:
whether `ec_init` succeeds, the device count `ec_config_init` reports, the
group-level working-counter counts, the broadcast state observed by each
attempt of the operational wait, the per-device states `ec_readstate`
delivers on the failure path, the per-cycle exchange results, and the
initial content of the mapped output buffer. -/
structure RunParams where
  initOk : Bool
  slavecount : Nat
  outputsWKC : Int
  inputsWKC : Int
  stateAt : Nat → Nat
  slaveStates : Nat → Nat
  cycleInputs : List CycleInput
  out0 : OutSomanet

/-- Observable outcome of one run of `simpletest`: the final value of the
shared `inOP` flag, whether the cyclic phase ran, the final cyclic-loop
state, the devices reported by the failure-path diagnostics, whether the
fall-back INIT state request was issued, and whether the socket was
closed. -/
structure RunResult where
  inOP : Bool
  cyclicEntered : Bool
  loop : LoopState
  diagSlaves : List Nat
  initRequested : Bool
  closed : Bool
  deriving Repr, DecidableEq

/-- The control skeleton of `simpletest`, translated from the source:
`ec_init` failure and a zero device count abort early; otherwise the
expected working counter is computed, the bounded operational wait runs,
and either the 10000-iteration cyclic loop executes (with `inOP` raised
before it and cleared right after it) or the per-device diagnostics are
printed; in both of those branches the INIT fall-back request follows and
the socket is closed. -/
def simpletest (p : RunParams) : RunResult :=
  if p.initOk then
    if 0 < p.slavecount then
      let expectedWKC := computeExpectedWKC p.outputsWKC p.inputsWKC
      let w := opWait p.stateAt
      if w.2 = EC_STATE_OPERATIONAL then
        { inOP := false
          cyclicEntered := true
          loop := runLoop expectedWKC (p.cycleInputs.take 10000) p.out0
          diagSlaves := []
          initRequested := true
          closed := true }
      else
        { inOP := false
          cyclicEntered := false
          loop := initLoopState p.out0
          diagSlaves := diagLoop p.slaveStates 1 p.slavecount
          initRequested := true
          closed := true }
    else
      { inOP := false, cyclicEntered := false, loop := initLoopState p.out0,
        diagSlaves := [], initRequested := false, closed := true }
  else
    { inOP := false, cyclicEntered := false, loop := initLoopState p.out0,
      diagSlaves := [], initRequested := false, closed := false }

/-! ## The supervisor loop `ecatcheck` -/

/-- One per-device record of the stack's device table, as `ecatcheck` uses
it: reported application-layer state, the `islost` flag, and group
membership. -/
structure SlaveRec where
  state : Nat
  islost : Bool
  group : Nat
  deriving Repr, DecidableEq

/-- Results of the external stack calls the supervisor sweep makes:
the state `ec_readstate` reports per device, the state `ec_statecheck`
observes per device during the bounded re-verification, and the outcomes of
`ec_reconfig_slave` and `ec_recover_slave`. -/
structure BusEnv where
  reported : Nat → Nat
  checked : Nat → Nat
  reconfigOk : Nat → Bool
  recoverOk : Nat → Bool

/-- Observable actions of one supervisor sweep: the pending-newline print,
state-transition requests (`ec_writestate` with the target state), the
reconfigure / re-check / recover calls with their outcomes, and the
diagnostic messages. -/
inductive SupEvent where
  | newline
  | writeState (slave : Nat) (target : Nat)
  | reconfig (slave : Nat) (ok : Bool)
  | recheck (slave : Nat)
  | recover (slave : Nat) (ok : Bool)
  | msgSafeOpError (slave : Nat)
  | msgSafeOpWarn (slave : Nat)
  | msgReconfigured (slave : Nat)
  | msgLost (slave : Nat)
  | msgRecovered (slave : Nat)
  | msgFound (slave : Nat)
  | msgAllResumed
  deriving Repr, DecidableEq

/-- First half of the per-device body of the sweep, translated from the
source: for a device of the active group whose state is not OPERATIONAL,
`docheckstate` is raised and exactly one branch runs — SAFE_OP+ERROR gets an
error acknowledge, SAFE_OP gets a promotion request, any state above NONE
gets a reconfiguration attempt (success clears `islost`), and otherwise a
not-yet-lost device is re-verified by a bounded state check and marked lost
if still at NONE.  Returns the updated record, the `docheckstate`
contribution, and the emitted events. -/
def checkSlavePart1 (env : BusEnv) (cg id : Nat) (r : SlaveRec) :
    SlaveRec × Bool × List SupEvent :=
  if r.group = cg ∧ r.state ≠ EC_STATE_OPERATIONAL then
    if r.state = EC_STATE_SAFE_OP + EC_STATE_ERROR then
      ({ r with state := EC_STATE_SAFE_OP + EC_STATE_ACK }, true,
        [.msgSafeOpError id, .writeState id (EC_STATE_SAFE_OP + EC_STATE_ACK)])
    else if r.state = EC_STATE_SAFE_OP then
      ({ r with state := EC_STATE_OPERATIONAL }, true,
        [.msgSafeOpWarn id, .writeState id EC_STATE_OPERATIONAL])
    else if EC_STATE_NONE < r.state then
      if env.reconfigOk id then
        ({ r with islost := false }, true, [.reconfig id true, .msgReconfigured id])
      else (r, true, [.reconfig id false])
    else if r.islost = false then
      if env.checked id = EC_STATE_NONE then
        ({ r with state := env.checked id, islost := true }, true, [.recheck id, .msgLost id])
      else ({ r with state := env.checked id }, true, [.recheck id])
    else (r, true, [])
  else (r, false, [])

/-- Second half of the per-device body of the sweep: a device marked lost is
recovered when its state is NONE (success clears `islost`), and has `islost`
cleared unconditionally when its state is no longer NONE. -/
def checkSlavePart2 (env : BusEnv) (id : Nat) (r : SlaveRec) :
    SlaveRec × List SupEvent :=
  if r.islost then
    if r.state = EC_STATE_NONE then
      if env.recoverOk id then
        ({ r with islost := false }, [.recover id true, .msgRecovered id])
      else (r, [.recover id false])
    else ({ r with islost := false }, [.msgFound id])
  else (r, [])

/-- The full per-device body of the sweep. -/
def checkSlave (env : BusEnv) (cg id : Nat) (r : SlaveRec) :
    SlaveRec × Bool × List SupEvent :=
  let p1 := checkSlavePart1 env cg id r
  let p2 := checkSlavePart2 env id p1.1
  (p2.1, p1.2.1, p1.2.2 ++ p2.2)

/-- `ec_readstate` refreshing one device record. -/
def refreshRec (env : BusEnv) (id : Nat) (r : SlaveRec) : SlaveRec :=
  { r with state := env.reported id }

/-- Per-device processing of the sweep: refresh by `ec_readstate`, then the
two halves of the loop body. -/
def slaveStep (env : BusEnv) (cg id : Nat) (r : SlaveRec) :
    SlaveRec × Bool × List SupEvent :=
  checkSlave env cg id (refreshRec env id r)

/-- The sweep's loop over the device table (device ids counted from `id`),
accumulating the refreshed records, the `docheckstate` flag, and the emitted
events. -/
def sweepGo (env : BusEnv) (cg : Nat) : Nat → List SlaveRec → List SlaveRec × Bool × List SupEvent
  | _, [] => ([], false, [])
  | id, r :: rs =>
    let h := slaveStep env cg id r
    let t := sweepGo env cg (id + 1) rs
    (h.1 :: t.1, h.2.1 || t.2.1, h.2.2 ++ t.2.2)

/-- One full recovery sweep of `ecatcheck` (the body of its wake branch):
print the pending newline if `needlf` is set, clear and recompute
`docheckstate` over the refreshed device table, and report that all devices
resumed when nothing is left to re-check. -/
def sweep (env : BusEnv) (cg : Nat) (T : List SlaveRec) (needlf : Bool) :
    List SlaveRec × Bool × List SupEvent :=
  let pre : List SupEvent := if needlf then [.newline] else []
  let s := sweepGo env cg 1 T
  (s.1, s.2.1, pre ++ s.2.2 ++ (if s.2.1 then [] else [.msgAllResumed]))

/-- The shared state the supervisor reads: the `inOP` readiness flag, the
last observed and the expected working counter, and the pending-newline
flag. -/
structure SupShared where
  inOP : Bool
  wkc : Int
  expectedWKC : Int
  needlf : Bool
  deriving Repr, DecidableEq

/-- The wake condition of `ecatcheck`:
`inOP && ((wkc < expectedWKC) || ec_group[currentgroup].docheckstate)`. -/
def wake (sh : SupShared) (docheckstate : Bool) : Bool :=
  sh.inOP && (decide (sh.wkc < sh.expectedWKC) || docheckstate)

/-- One iteration of the `while(1)` body of `ecatcheck`: when the wake
condition holds, run the sweep (clearing `needlf`); otherwise do nothing at
all. -/
def ecatcheckStep (env : BusEnv) (cg : Nat) (sh : SupShared) (docheckstate : Bool)
    (T : List SlaveRec) : SupShared × Bool × List SlaveRec × List SupEvent :=
  if wake sh docheckstate then
    let s := sweep env cg T sh.needlf
    ({ sh with needlf := false }, s.2.1, s.1, s.2.2)
  else (sh, docheckstate, T, [])

/-- `n` consecutive iterations of the supervisor loop, concatenating the
events they emit. -/
def ecatcheckIter (env : BusEnv) (cg : Nat) :
    Nat → SupShared × Bool × List SlaveRec → (SupShared × Bool × List SlaveRec) × List SupEvent
  | 0, s => (s, [])
  | n + 1, s =>
    let r := ecatcheckStep env cg s.1 s.2.1 s.2.2
    let rest := ecatcheckIter env cg n (r.1, r.2.1, r.2.2.1)
    (rest.1, r.2.2.2 ++ rest.2)

/-- Recognizes state-transition requests among the sweep's events. -/
def isWriteReq : SupEvent → Bool
  | .writeState _ _ => true
  | _ => false

/-- Recognizes a transition request issued for a device that already reports
the fully OPERATIONAL state — a request that was already satisfied. -/
def satisfiedReq (env : BusEnv) : SupEvent → Bool
  | .writeState s _ => env.reported s == EC_STATE_OPERATIONAL
  | _ => false

lemma slaveStep_idem (env : BusEnv) (cg id : Nat) (r : SlaveRec)
    (hc : env.checked id = env.reported id) :
    (slaveStep env cg id (slaveStep env cg id r).1).1 = (slaveStep env cg id r).1 ∧
    (slaveStep env cg id (slaveStep env cg id r).1).2.1 = (slaveStep env cg id r).2.1 ∧
    (slaveStep env cg id (slaveStep env cg id r).1).2.2.filter isWriteReq
      = (slaveStep env cg id r).2.2.filter isWriteReq := by
  have hc9 : env.checked id = env.reported id := hc
  by_cases hg : r.group = cg
  · by_cases h8 : env.reported id = 8
    · by_cases l : r.islost <;>
        simp [slaveStep, checkSlave, checkSlavePart1, checkSlavePart2, refreshRec,
          hg, h8, l, isWriteReq, EC_STATE_OPERATIONAL, EC_STATE_NONE]
    · by_cases h20 : env.reported id = 20
      · by_cases l : r.islost <;>
          simp [slaveStep, checkSlave, checkSlavePart1, checkSlavePart2, refreshRec,
            hg, h8, h20, l, isWriteReq, EC_STATE_OPERATIONAL, EC_STATE_NONE,
            EC_STATE_SAFE_OP, EC_STATE_ERROR, EC_STATE_ACK]
      · by_cases h4 : env.reported id = 4
        · by_cases l : r.islost <;>
            simp [slaveStep, checkSlave, checkSlavePart1, checkSlavePart2, refreshRec,
              hg, h8, h20, h4, l, isWriteReq, EC_STATE_OPERATIONAL, EC_STATE_NONE,
              EC_STATE_SAFE_OP, EC_STATE_ERROR, EC_STATE_ACK]
        · by_cases h0 : env.reported id = 0
          · by_cases l : r.islost <;> by_cases rok : env.recoverOk id <;>
              simp [slaveStep, checkSlave, checkSlavePart1, checkSlavePart2, refreshRec,
                hg, h8, h20, h4, h0, hc9, l, rok, isWriteReq, EC_STATE_OPERATIONAL,
                EC_STATE_NONE, EC_STATE_SAFE_OP, EC_STATE_ERROR, EC_STATE_ACK]
          · have hpos : 0 < env.reported id := by omega
            by_cases l : r.islost <;> by_cases rc : env.reconfigOk id <;>
              simp [slaveStep, checkSlave, checkSlavePart1, checkSlavePart2, refreshRec,
                hg, h8, h20, h4, h0, hpos, l, rc, isWriteReq, EC_STATE_OPERATIONAL,
                EC_STATE_NONE, EC_STATE_SAFE_OP, EC_STATE_ERROR, EC_STATE_ACK]
  · by_cases h0 : env.reported id = 0
    · by_cases l : r.islost <;> by_cases rok : env.recoverOk id <;>
        simp [slaveStep, checkSlave, checkSlavePart1, checkSlavePart2, refreshRec,
          hg, h0, l, rok, isWriteReq, EC_STATE_OPERATIONAL, EC_STATE_NONE]
    · by_cases l : r.islost <;>
        simp [slaveStep, checkSlave, checkSlavePart1, checkSlavePart2, refreshRec,
          hg, h0, l, isWriteReq, EC_STATE_OPERATIONAL, EC_STATE_NONE]

/-- A sweep never issues a transition request for a device that already
reports the OPERATIONAL state: per-device version. -/
lemma slaveStep_no_satisfied (env : BusEnv) (cg id : Nat) (r : SlaveRec) :
    (slaveStep env cg id r).2.2.filter (satisfiedReq env) = [] := by
  by_cases hg : r.group = cg
  · by_cases h8 : env.reported id = 8
    · by_cases l : r.islost <;>
        simp [slaveStep, checkSlave, checkSlavePart1, checkSlavePart2, refreshRec,
          hg, h8, l, satisfiedReq, EC_STATE_OPERATIONAL, EC_STATE_NONE]
    · by_cases h20 : env.reported id = 20
      · by_cases l : r.islost <;>
          simp [slaveStep, checkSlave, checkSlavePart1, checkSlavePart2, refreshRec,
            hg, h8, h20, l, satisfiedReq, EC_STATE_OPERATIONAL, EC_STATE_NONE,
            EC_STATE_SAFE_OP, EC_STATE_ERROR, EC_STATE_ACK]
      · by_cases h4 : env.reported id = 4
        · by_cases l : r.islost <;>
            simp [slaveStep, checkSlave, checkSlavePart1, checkSlavePart2, refreshRec,
              hg, h8, h20, h4, l, satisfiedReq, EC_STATE_OPERATIONAL, EC_STATE_NONE,
              EC_STATE_SAFE_OP, EC_STATE_ERROR, EC_STATE_ACK]
        · by_cases h0 : env.reported id = 0
          · by_cases l : r.islost <;>
              by_cases hck : env.checked id = 0 <;>
                by_cases rok : env.recoverOk id <;>
                  simp [slaveStep, checkSlave, checkSlavePart1, checkSlavePart2,
                    refreshRec, hg, h8, h20, h4, h0, hck, l, rok, satisfiedReq,
                    EC_STATE_OPERATIONAL, EC_STATE_NONE, EC_STATE_SAFE_OP,
                    EC_STATE_ERROR, EC_STATE_ACK]
          · have hpos : 0 < env.reported id := by omega
            by_cases l : r.islost <;> by_cases rc : env.reconfigOk id <;>
              simp [slaveStep, checkSlave, checkSlavePart1, checkSlavePart2, refreshRec,
                hg, h8, h20, h4, h0, hpos, l, rc, satisfiedReq, EC_STATE_OPERATIONAL,
                EC_STATE_NONE, EC_STATE_SAFE_OP, EC_STATE_ERROR, EC_STATE_ACK]
  · by_cases h0 : env.reported id = 0
    · by_cases l : r.islost <;> by_cases rok : env.recoverOk id <;>
        simp [slaveStep, checkSlave, checkSlavePart1, checkSlavePart2, refreshRec,
          hg, h0, l, rok, satisfiedReq, EC_STATE_OPERATIONAL, EC_STATE_NONE]
    · by_cases l : r.islost <;>
        simp [slaveStep, checkSlave, checkSlavePart1, checkSlavePart2, refreshRec,
          hg, h0, l, satisfiedReq, EC_STATE_OPERATIONAL, EC_STATE_NONE]

lemma sweepGo_idem (env : BusEnv) (cg : Nat)
    (hc : ∀ s, env.checked s = env.reported s) :
    ∀ (T : List SlaveRec) (id : Nat),
      (sweepGo env cg id (sweepGo env cg id T).1).1 = (sweepGo env cg id T).1 ∧
      (sweepGo env cg id (sweepGo env cg id T).1).2.1 = (sweepGo env cg id T).2.1 ∧
      (sweepGo env cg id (sweepGo env cg id T).1).2.2.filter isWriteReq
        = (sweepGo env cg id T).2.2.filter isWriteReq := by
  intro T
  induction T with
  | nil => intro id; simp [sweepGo]
  | cons r rs ih =>
    intro id
    obtain ⟨hrec, hdc, hreq⟩ := slaveStep_idem env cg id r (hc id)
    obtain ⟨ihrec, ihdc, ihreq⟩ := ih (id + 1)
    refine ⟨?_, ?_, ?_⟩ <;>
      simp [sweepGo, hrec, hdc, hreq, ihrec, ihdc, ihreq, List.filter_append]

lemma sweepGo_no_satisfied (env : BusEnv) (cg : Nat) :
    ∀ (T : List SlaveRec) (id : Nat),
      (sweepGo env cg id T).2.2.filter (satisfiedReq env) = [] := by
  intro T
  induction T with
  | nil => intro id; simp [sweepGo]
  | cons r rs ih =>
    intro id
    simp [sweepGo, List.filter_append, slaveStep_no_satisfied env cg id r, ih (id + 1)]

/-- The bookkeeping events of the sweep (the pending newline and the
all-resumed message) are neither transition requests nor satisfied ones. -/
lemma sweep_filter_events (env : BusEnv) (cg : Nat) (T : List SlaveRec) (needlf : Bool) :
    (sweep env cg T needlf).2.2.filter isWriteReq
        = (sweepGo env cg 1 T).2.2.filter isWriteReq ∧
      (sweep env cg T needlf).2.2.filter (satisfiedReq env)
        = (sweepGo env cg 1 T).2.2.filter (satisfiedReq env) := by
  constructor <;>
    cases needlf <;>
      cases hdc : (sweepGo env cg 1 T).2.1 <;>
        simp [sweep, hdc, List.filter_append, isWriteReq, satisfiedReq]

/-! ## Spec-side rendering of the sweep's per-device action selection -/

/-- The recovery actions the spec describes for a non-operational device of
the active group. -/
inductive RecoveryAction where
  | ack
  | promote
  | reconfigure
  | verifyLost
  | idle
  deriving Repr, DecidableEq

/-- The spec's priority selection: safe-operational-plus-error gets an error
acknowledge, plain safe-operational gets a promotion, any other state above
NONE gets a reconfiguration, a not-yet-lost device gets a bounded
re-verification, and nothing is selected otherwise. -/
def selectAction (r : SlaveRec) : RecoveryAction :=
  if r.state = EC_STATE_SAFE_OP + EC_STATE_ERROR then .ack
  else if r.state = EC_STATE_SAFE_OP then .promote
  else if EC_STATE_NONE < r.state then .reconfigure
  else if r.islost = false then .verifyLost
  else .idle

/-- Effect of each recovery action on the device record and the events it
emits, per the spec's description. -/
def applyAction (env : BusEnv) (id : Nat) (r : SlaveRec) :
    RecoveryAction → SlaveRec × List SupEvent
  | .ack =>
    ({ r with state := EC_STATE_SAFE_OP + EC_STATE_ACK },
      [.msgSafeOpError id, .writeState id (EC_STATE_SAFE_OP + EC_STATE_ACK)])
  | .promote =>
    ({ r with state := EC_STATE_OPERATIONAL },
      [.msgSafeOpWarn id, .writeState id EC_STATE_OPERATIONAL])
  | .reconfigure =>
    if env.reconfigOk id then
      ({ r with islost := false }, [.reconfig id true, .msgReconfigured id])
    else (r, [.reconfig id false])
  | .verifyLost =>
    if env.checked id = EC_STATE_NONE then
      ({ r with state := env.checked id, islost := true }, [.recheck id, .msgLost id])
    else ({ r with state := env.checked id }, [.recheck id])
  | .idle => (r, [])

/-- With the operational readiness flag down, any number of supervisor
iterations leaves the shared state, the check flag and the device table
untouched and emits nothing. -/
lemma ecatcheckIter_inOP_false (env : BusEnv) (cg : Nat) :
    ∀ (n : Nat) (sh : SupShared) (dc : Bool) (T : List SlaveRec), sh.inOP = false →
      ecatcheckIter env cg n (sh, dc, T) = ((sh, dc, T), []) := by
  intro n
  induction n with
  | zero => intro sh dc T _; rfl
  | succ m ih =>
    intro sh dc T h
    have hwake : wake sh dc = false := by simp [wake, h]
    have hstep : ecatcheckStep env cg sh dc T = (sh, dc, T, []) := by
      simp [ecatcheckStep, hwake]
    simp [ecatcheckIter, hstep, ih sh dc T h]

/-! ## Sample values used by the witness theorems -/

/-- An input process image with status word `0x0040` (switch-on disabled)
and all other fields zero. -/
def sampleIn : InSomanet :=
  ⟨0x0040, 0, 0, 0, 0, 0, 0, 0, 0, 0, 0, 0, 0, 0, 0, 0, 0, 0, 0, 0, 0⟩

/-- An all-zero output command buffer. -/
def sampleOut : OutSomanet := ⟨0, 0, 0, 0, 0, 0, 0, 0, 0, 0, 0, 0, 0⟩

/-- A bus environment in which every device reports OPERATIONAL and all
recovery calls succeed. -/
def sampleEnv : BusEnv :=
  { reported := fun _ => EC_STATE_OPERATIONAL, checked := fun _ => EC_STATE_OPERATIONAL,
    reconfigOk := fun _ => true, recoverOk := fun _ => true }

/-- A bus environment in which every device reports SAFE_OP. -/
def sampleSafeOpEnv : BusEnv :=
  { reported := fun _ => EC_STATE_SAFE_OP, checked := fun _ => EC_STATE_SAFE_OP,
    reconfigOk := fun _ => true, recoverOk := fun _ => true }

/-- Run parameters for a run in which the devices never leave SAFE_OP. -/
def sampleTimeoutParams : RunParams :=
  { initOk := true, slavecount := 2, outputsWKC := 2, inputsWKC := 3,
    stateAt := fun _ => EC_STATE_SAFE_OP, slaveStates := fun _ => EC_STATE_SAFE_OP,
    cycleInputs := [], out0 := sampleOut }

/-- Run parameters for a run in which binding the interface fails. -/
def sampleAbortParams : RunParams :=
  { initOk := false, slavecount := 0, outputsWKC := 0, inputsWKC := 0,
    stateAt := fun _ => EC_STATE_NONE, slaveStates := fun _ => EC_STATE_NONE,
    cycleInputs := [], out0 := sampleOut }

/-- A shared supervisor state with the readiness flag down. -/
def sampleShared : SupShared :=
  { inOP := false, wkc := 7, expectedWKC := 7, needlf := false }

/-! ## The claims -/

/-- C1: the drive state machine tests the status word against the five
(mask, pattern) pairs in the fixed priority order fault-reset, shutdown,
switch-on, enable-operation, set-target-velocity and applies only the first
matching command write (it refines first-match application of the ordered
transition list, which by construction performs at most one command-buffer
transition per accepted cycle); in particular a status word whose `0x004F`
masked view is `0x0008` yields control word `0x0080`, and one whose masked
view is `0x0040` yields control word `0x0006`. -/
theorem drive_sm_priority_order (sw : Nat) (out : OutSomanet) :
    driveSM sw out = applyFirstMatch csvTransitions sw out ∧
    (sw &&& 0x004F = 0x0008 → driveSM sw out = { out with Controlword := 0x0080 }) ∧
    (sw &&& 0x004F = 0x0040 → driveSM sw out = { out with Controlword := 0x0006 }) := by
  refine ⟨rfl, ?_, ?_⟩
  · intro h
    simp [driveSM, h]
  · intro h
    simp [driveSM, h]

theorem drive_sm_priority_order_witness :
    driveSM 0x0040 sampleOut = applyFirstMatch csvTransitions 0x0040 sampleOut ∧
    (0x0040 &&& 0x004F = 0x0008 →
      driveSM 0x0040 sampleOut = { sampleOut with Controlword := 0x0080 }) ∧
    (0x0040 &&& 0x004F = 0x0040 →
      driveSM 0x0040 sampleOut = { sampleOut with Controlword := 0x0006 }) :=
  drive_sm_priority_order 0x0040 sampleOut

/-- C2: a cycle whose observed working counter is strictly below the
expected one leaves the whole loop state untouched — the output command
buffer byte for byte, the accepted-cycle counter, and the logs (no state
machine evaluation, no status line). -/
theorem degraded_cycle_no_effect (expectedWKC : Int) (i : Nat) (c : CycleInput)
    (s : LoopState) (h : c.wkc < expectedWKC) : cycleBody expectedWKC i c s = s :=
  cycleBody_degraded i s h

theorem degraded_cycle_no_effect_witness :
    (6 : Int) < 7 ∧
      cycleBody 7 1 ⟨6, sampleIn⟩ (initLoopState sampleOut) = initLoopState sampleOut :=
  ⟨by decide, degraded_cycle_no_effect 7 1 ⟨6, sampleIn⟩ (initLoopState sampleOut) (by decide)⟩

/-- C3: over any sequence of exchange outcomes, the operating-mode selector
is written (with the CSV value 9) exactly on the first accepted cycle —
the cycle on which the accepted-cycle counter first reaches 1 — and never
again; if no cycle is accepted it is never written. -/
theorem opmode_written_once_on_first_accepted (expectedWKC : Int)
    (inputs : List CycleInput) (out0 : OutSomanet) :
    (runLoop expectedWKC inputs out0).opModeWrites =
      (firstAccepted expectedWKC 1 inputs).elim [] (fun k => [(k, (9 : Int))]) := by
  have h := runCycles_opModeWrites_of_zero expectedWKC inputs 1 (initLoopState out0) rfl
  simpa [runLoop, initLoopState] using h

/-- C4: the expected working counter is `2 * outputsWKC + inputsWKC`; with
output count 2 and input count 3 it is 7, an exchange returning 6 is
degraded (leaves the cycle without effect), and in general a cycle has an
effect exactly when the observed working counter reaches the expected
value. -/
theorem expected_wkc_and_acceptance (i : Nat) (c : CycleInput) (s : LoopState) :
    computeExpectedWKC 2 3 = 7 ∧
    (c.wkc = 6 → cycleBody (computeExpectedWKC 2 3) i c s = s) ∧
    (∀ e : Int, cycleBody e i c s = s ↔ c.wkc < e) := by
  refine ⟨by decide, ?_, ?_⟩
  · intro h6
    exact cycleBody_degraded i s (by rw [h6]; decide)
  · intro e
    constructor
    · intro hEq
      by_contra hnl
      have hle : e ≤ c.wkc := by omega
      exact cycleBody_accepted_ne i s hle hEq
    · intro hlt
      exact cycleBody_degraded i s hlt

theorem expected_wkc_and_acceptance_witness :
    computeExpectedWKC 2 3 = 7 ∧
    ((⟨6, sampleIn⟩ : CycleInput).wkc = 6 →
      cycleBody (computeExpectedWKC 2 3) 1 ⟨6, sampleIn⟩ (initLoopState sampleOut)
        = initLoopState sampleOut) ∧
    (∀ e : Int, cycleBody e 1 ⟨6, sampleIn⟩ (initLoopState sampleOut) = initLoopState sampleOut
      ↔ (⟨6, sampleIn⟩ : CycleInput).wkc < e) :=
  expected_wkc_and_acceptance 1 ⟨6, sampleIn⟩ (initLoopState sampleOut)

/-- C5: when the observed broadcast state never reaches OPERATIONAL, the
wait loop performs exactly 201 exchange-and-statecheck attempts (the initial
one plus its 200 retries), the cyclic phase is never entered (the loop state
stays initial), one diagnostic entry is reported per device whose state is
not OPERATIONAL, and the fall-back INIT request is issued before the run
ends. -/
theorem op_timeout_aborts_cyclic_phase (p : RunParams) (hio : p.initOk = true)
    (hsc : 0 < p.slavecount) (h : ∀ k, p.stateAt k ≠ EC_STATE_OPERATIONAL) :
    (opWait p.stateAt).1 = 201 ∧
    (simpletest p).cyclicEntered = false ∧
    (simpletest p).loop = initLoopState p.out0 ∧
    (simpletest p).diagSlaves =
      (List.range' 1 p.slavecount).filter (fun s => p.slaveStates s ≠ EC_STATE_OPERATIONAL) ∧
    (simpletest p).initRequested = true := by
  have hop : opWait p.stateAt = (201, p.stateAt 200) := by
    have hgo := opWaitGo_never p.stateAt h 200 0
    simpa [opWait] using hgo
  have hne := h 200
  refine ⟨by rw [hop], ?_, ?_, ?_, ?_⟩ <;>
    simp [simpletest, hio, hsc, hop, hne, diagLoop_eq_filter]

theorem op_timeout_aborts_cyclic_phase_witness :
    (opWait sampleTimeoutParams.stateAt).1 = 201 ∧
    (simpletest sampleTimeoutParams).cyclicEntered = false ∧
    (simpletest sampleTimeoutParams).loop = initLoopState sampleTimeoutParams.out0 ∧
    (simpletest sampleTimeoutParams).diagSlaves =
      (List.range' 1 sampleTimeoutParams.slavecount).filter
        (fun s => sampleTimeoutParams.slaveStates s ≠ EC_STATE_OPERATIONAL) ∧
    (simpletest sampleTimeoutParams).initRequested = true :=
  op_timeout_aborts_cyclic_phase sampleTimeoutParams rfl (by decide)
    (fun _ => by simp [sampleTimeoutParams, EC_STATE_SAFE_OP, EC_STATE_OPERATIONAL])

/-- C6: a supervisor iteration performs its sweep only when the readiness
flag is set and either the last observed working counter is below the
expected one or the needs-recheck flag is set; in every other state the
iteration changes nothing and emits nothing. -/
theorem supervisor_wake_condition (env : BusEnv) (cg : Nat) (sh : SupShared)
    (docheckstate : Bool) (T : List SlaveRec) :
    (wake sh docheckstate = false →
      ecatcheckStep env cg sh docheckstate T = (sh, docheckstate, T, [])) ∧
    (wake sh docheckstate = true ↔
      sh.inOP = true ∧ (sh.wkc < sh.expectedWKC ∨ docheckstate = true)) := by
  constructor
  · intro h
    simp [ecatcheckStep, h]
  · simp [wake, Bool.and_eq_true, Bool.or_eq_true, decide_eq_true_eq]

theorem supervisor_wake_condition_witness :
    (wake sampleShared false = false →
      ecatcheckStep sampleEnv 0 sampleShared false [] = (sampleShared, false, [], [])) ∧
    (wake sampleShared false = true ↔
      sampleShared.inOP = true ∧
        (sampleShared.wkc < sampleShared.expectedWKC ∨ false = true)) :=
  supervisor_wake_condition sampleEnv 0 sampleShared false []

/-- C7: for a device of the active group whose state is not OPERATIONAL,
the first half of the sweep body performs exactly the one recovery action
chosen by the priority order ack / promote / reconfigure / verify-lost
(idle only for an already-lost device with no link), raising the
needs-recheck flag; and independently, a device marked lost is recovered
when its state is NONE (success clearing the lost flag) and has the lost
flag cleared unconditionally when its state is no longer NONE. -/
theorem sweep_action_priority (env : BusEnv) (cg id : Nat) (r rl : SlaveRec)
    (hg : r.group = cg) (hs : r.state ≠ EC_STATE_OPERATIONAL) :
    checkSlavePart1 env cg id r =
      ((applyAction env id r (selectAction r)).1, true,
        (applyAction env id r (selectAction r)).2) ∧
    (rl.islost = true → rl.state = EC_STATE_NONE →
      checkSlavePart2 env id rl =
        (if env.recoverOk id then
          ({ rl with islost := false }, [.recover id true, .msgRecovered id])
         else (rl, [.recover id false]))) ∧
    (rl.islost = true → rl.state ≠ EC_STATE_NONE →
      checkSlavePart2 env id rl = ({ rl with islost := false }, [.msgFound id])) := by
  refine ⟨?_, ?_, ?_⟩
  · rw [checkSlavePart1, if_pos ⟨hg, hs⟩]
    unfold selectAction applyAction
    split_ifs <;> rfl
  · intro hl h0
    simp [checkSlavePart2, hl, h0]
  · intro hl h0
    simp [checkSlavePart2, hl, h0]

theorem sweep_action_priority_witness :
    checkSlavePart1 sampleEnv 0 1 ⟨20, false, 0⟩ =
      ((applyAction sampleEnv 1 ⟨20, false, 0⟩ (selectAction ⟨20, false, 0⟩)).1, true,
        (applyAction sampleEnv 1 ⟨20, false, 0⟩ (selectAction ⟨20, false, 0⟩)).2) ∧
    ((⟨0, true, 0⟩ : SlaveRec).islost = true → (⟨0, true, 0⟩ : SlaveRec).state = EC_STATE_NONE →
      checkSlavePart2 sampleEnv 1 ⟨0, true, 0⟩ =
        (if sampleEnv.recoverOk 1 then
          ({ (⟨0, true, 0⟩ : SlaveRec) with islost := false }, [.recover 1 true, .msgRecovered 1])
         else (⟨0, true, 0⟩, [.recover 1 false]))) ∧
    ((⟨0, true, 0⟩ : SlaveRec).islost = true → (⟨0, true, 0⟩ : SlaveRec).state ≠ EC_STATE_NONE →
      checkSlavePart2 sampleEnv 1 ⟨0, true, 0⟩ =
        ({ (⟨0, true, 0⟩ : SlaveRec) with islost := false }, [.msgFound 1])) :=
  sweep_action_priority sampleEnv 0 1 ⟨20, false, 0⟩ ⟨0, true, 0⟩ rfl (by decide)

/-- C8: with no change in any device's reported link state (all reads agree
with `reported`) and the same recovery-call outcomes, running the sweep a
second time yields the same device-record table and the same needs-recheck
flag as the first run, issues exactly the same transition requests, and no
sweep ever issues a transition request for a device already reporting
OPERATIONAL (a request that was already satisfied). -/
theorem sweep_idempotent (env : BusEnv) (cg : Nat) (T : List SlaveRec) (needlf : Bool)
    (hc : ∀ s, env.checked s = env.reported s) :
    (sweep env cg (sweep env cg T needlf).1 false).1 = (sweep env cg T needlf).1 ∧
    (sweep env cg (sweep env cg T needlf).1 false).2.1 = (sweep env cg T needlf).2.1 ∧
    (sweep env cg (sweep env cg T needlf).1 false).2.2.filter isWriteReq
      = (sweep env cg T needlf).2.2.filter isWriteReq ∧
    (sweep env cg T needlf).2.2.filter (satisfiedReq env) = [] := by
  obtain ⟨h1, h2, h3⟩ := sweepGo_idem env cg hc T 1
  have e1 := (sweep_filter_events env cg T needlf).1
  have e2 := (sweep_filter_events env cg (sweep env cg T needlf).1 false).1
  refine ⟨h1, h2, ?_, ?_⟩
  · rw [e2, e1]
    exact h3
  · rw [(sweep_filter_events env cg T needlf).2]
    exact sweepGo_no_satisfied env cg T 1

theorem sweep_idempotent_witness :
    (sweep sampleSafeOpEnv 0 (sweep sampleSafeOpEnv 0 [⟨0, true, 0⟩] true).1 false).1
        = (sweep sampleSafeOpEnv 0 [⟨0, true, 0⟩] true).1 ∧
    (sweep sampleSafeOpEnv 0 (sweep sampleSafeOpEnv 0 [⟨0, true, 0⟩] true).1 false).2.1
        = (sweep sampleSafeOpEnv 0 [⟨0, true, 0⟩] true).2.1 ∧
    (sweep sampleSafeOpEnv 0 (sweep sampleSafeOpEnv 0 [⟨0, true, 0⟩] true).1 false).2.2.filter
        isWriteReq
        = (sweep sampleSafeOpEnv 0 [⟨0, true, 0⟩] true).2.2.filter isWriteReq ∧
    (sweep sampleSafeOpEnv 0 [⟨0, true, 0⟩] true).2.2.filter (satisfiedReq sampleSafeOpEnv)
        = [] :=
  sweep_idempotent sampleSafeOpEnv 0 [⟨0, true, 0⟩] true (fun _ => rfl)

/-- C9: the five guard conditions of the drive state machine are pairwise
mutually exclusive — on every 16-bit status word at most one of them holds —
so replacing the else-if chain by five independent if-statements yields the
same command buffer, and the priority order never disambiguates between two
simultaneously matching conditions. -/
theorem drive_sm_guards_exclusive :
    (∀ sw : Fin 65536, smCondCount sw.val ≤ 1) ∧
    (∀ (sw : Fin 65536) (o : OutSomanet), driveSMIndep sw.val o = driveSM sw.val o) :=
  ⟨fun sw => smCondCount_le_one sw.val, fun sw o => driveSMIndep_eq_driveSM sw.val o⟩

/-- C10: every path of `simpletest` ends with the operational readiness flag
false — in particular it is cleared right after the bounded cyclic loop —
and from any state in which the flag is false, any number of further
supervisor iterations changes nothing and emits nothing, so no recovery
action, device-record write, or supervisor output occurs after the control
phase ends. -/
theorem inOP_cleared_after_run (p : RunParams) (env : BusEnv) (cg n : Nat)
    (sh : SupShared) (docheckstate : Bool) (T : List SlaveRec)
    (h : sh.inOP = (simpletest p).inOP) :
    sh.inOP = false ∧
    ecatcheckIter env cg n (sh, docheckstate, T) = ((sh, docheckstate, T), []) := by
  have hfin : (simpletest p).inOP = false := by
    unfold simpletest
    dsimp only
    split_ifs <;> rfl
  have hfalse : sh.inOP = false := h.trans hfin
  exact ⟨hfalse, ecatcheckIter_inOP_false env cg n sh docheckstate T hfalse⟩

theorem inOP_cleared_after_run_witness :
    sampleShared.inOP = false ∧
    ecatcheckIter sampleEnv 0 3 (sampleShared, false, []) = ((sampleShared, false, []), []) :=
  inOP_cleared_after_run sampleAbortParams sampleEnv 0 3 sampleShared false [] rfl

end SomanetCSV
